import Mathlib

/-!
Verification of the server-side request-handling core of react-router
(`packages/react-router/lib/server-runtime/server.ts`) against its
natural-language specification.

The TypeScript source is shallowly embedded: the dispatcher and its helper
functions (`requestHandler`, `handleManifestRequest`, `handleResourceRequest`,
`handleDocumentRequest` / `renderHtml`, `errorResponseToJson`,
`returnLastResortErrorResponse`, `unwrapResponse`) are translated into pure
Lean functions.  External collaborators that live outside this file's source
(the static-handler route matcher, document-header computation, error
serialization, the user-supplied render function, turbo-stream encoding) are
represented as oracle functions passed in through environment structures, or
as small definitions modelled from the specification where marked.
-/

namespace RR

/-- Lower-case a string character-wise (HTTP header names compare
case-insensitively). -/
def lowerStr (s : String) : String :=
  String.mk (s.data.map Char.toLower)

/-- JS `s.startsWith(p)`, computed on the character lists. -/
def strStartsWith (s p : String) : Bool :=
  List.isPrefixOf p.data s.data

/-- JS `s.endsWith(p)`, computed on the character lists. -/
def strEndsWith (s p : String) : Bool :=
  List.isSuffixOf p.data s.data

/-- Split a character list at every occurrence of `c`, accumulating the
current (reversed) segment — the semantics of JS `s.split(c)` for a
single-character separator. -/
def splitCharAux (c : Char) : List Char → List Char → List (List Char)
  | [], cur => [cur.reverse]
  | x :: xs, cur =>
    if x = c then cur.reverse :: splitCharAux c xs []
    else splitCharAux c xs (x :: cur)

/-- JS `s.split(c)` for a single-character separator. -/
def strSplitChar (c : Char) (s : String) : List String :=
  (splitCharAux c s.data []).map String.mk

/-- Header list: ordered name/value pairs, looked up case-insensitively like
the JS `Headers` class. -/
abbrev HList := List (String × String)

/-- Case-insensitive header lookup (`headers.get(name)`). -/
def hget (hs : HList) (name : String) : Option String :=
  (hs.find? (fun kv => lowerStr kv.1 == lowerStr name)).map (·.2)

/-- Case-insensitive header replacement (`headers.set(name, value)`): removes
any entry with the same name and appends the new pair. -/
def hset (hs : HList) (name value : String) : HList :=
  (hs.filter (fun kv => lowerStr kv.1 != lowerStr name)) ++ [(name, value)]

/-- The JS `headers.has(name)` check. -/
def hhas (hs : HList) (name : String) : Bool :=
  (hget hs name).isSome

/-- Server modes, from `./mode` (`ServerMode`). -/
inductive ServerMode where
  | Development
  | Production
  | Test
deriving DecidableEq, Repr

/-- Redirect descriptor built by `getSingleFetchRedirect` (status plus the
basename-adjusted Location). -/
structure SingleFetchRedirect where
  status : Nat
  location : String
deriving DecidableEq, Repr

/-- A single-fetch redirect result: for GET requests the descriptor is wrapped
under the reserved `SingleFetchRedirectSymbol` key, for other methods it is
returned bare. -/
inductive SFResults where
  | wrapped (r : SingleFetchRedirect)
  | single (r : SingleFetchRedirect)
deriving DecidableEq, Repr

/-- Result of `serializeError` from `./errors`: a message and an optional
stack. -/
structure SerializedError where
  message : String
  stack : Option String
deriving DecidableEq, Repr

/-- The server UI state streamed to the client
(`loaderData`/`actionData`/serialized `errors`). -/
structure HandoffState where
  loaderData : String
  actionData : String
  errors : Option (List (String × SerializedError))
deriving DecidableEq, Repr

/-- Payload of a turbo-stream encoded body. -/
inductive TurboPayload where
  | redirect (r : SFResults)
  | handoff (s : HandoffState)
deriving DecidableEq, Repr

/-- Response bodies, with just enough structure to distinguish the payloads
the dispatcher constructs: `null` bodies, plain text, JSON-serialized values,
serialized errors, JSON route-id/manifest-entry records, and turbo streams. -/
inductive Body where
  | empty
  | text (s : String)
  | json (s : String)
  | serializedError (e : SerializedError)
  | jsonAssoc (patches : List (String × String))
  | turbo (p : TurboPayload)
deriving DecidableEq, Repr

/-- The textual content of a body, as `response.text()` would produce it
(abstracted for the non-textual constructors). -/
def Body.textOf : Body → String
  | .empty => ""
  | .text s => s
  | .json s => s
  | .serializedError e => e.message
  | .jsonAssoc _ => ""
  | .turbo _ => ""

/-- A fetch `Response`. -/
structure Response where
  status : Nat
  statusText : String
  headers : HList
  body : Body
deriving DecidableEq, Repr

/-- A structured route error (`ErrorResponseImpl` from the router utilities):
status, status text, unwrapped data, and the "private" wrapped cause
(`error.error`). -/
structure ErrorResponse where
  status : Nat
  statusText : String
  data : Option String
  internalError : Option String
deriving DecidableEq, Repr

/-- Values thrown by route handlers or the render function: a `Response`, a
structured route error (`isRouteErrorResponse`), an `Error` instance with a
message, or any other value (kept as its string rendering). -/
inductive Thrown where
  | response (r : Response)
  | errorResponse (e : ErrorResponse)
  | error (message : String)
  | value (s : String)
deriving DecidableEq, Repr

/-- The string `String(error)` as JavaScript would render each thrown shape. -/
def Thrown.toStr : Thrown → String
  | .response _ => "[object Response]"
  | .errorResponse _ => "[object Object]"
  | .error m => "Error: " ++ m
  | .value s => s

/-- A `StaticHandlerContext`: status code, loader/action data and captured
errors keyed by route id. -/
structure Ctx where
  statusCode : Nat
  loaderData : String
  actionData : String
  errors : Option (List (String × Thrown))
deriving DecidableEq, Repr

/-- Modelled from the spec: `stripBasename` from the router utilities (not in
the sources under verification).  Returns the basename-relative, `/`-rooted
path, `none` when the path is not under the basename; a basename of `/`
leaves the path unchanged. -/
def stripBasename (pathname basename : String) : Option String :=
  if basename = "/" then some pathname
  else if ¬ strStartsWith pathname basename then none
  else
    let rest := pathname.drop basename.length
    if rest = "" then some "/"
    else if strStartsWith rest "/" then some rest
    else none

/-- Modelled from the spec: `isRedirectResponse` from the router (not in the
sources under verification) — a response with a standard 3xx status carrying a
`Location` header. -/
def isRedirectResponse (r : Response) : Bool :=
  decide (300 ≤ r.status) && decide (r.status ≤ 399) && (hget r.headers "Location").isSome

/-- Modelled from the spec: the fixed "single-fetch redirect" status code from
`../dom/ssr/single-fetch` (not in the sources under verification), chosen
outside the 3xx range so intermediaries do not auto-follow it. -/
def SINGLE_FETCH_REDIRECT_STATUS : Nat := 202

/-- Modelled from the spec: `SERVER_NO_BODY_STATUS_CODES` from
`./single-fetch` (not in the sources under verification) — the bodyless
status codes of the 1xx/204/304 class. -/
def SERVER_NO_BODY_STATUS_CODES : List Nat := [100, 101, 204, 304]

/-- Modelled from the spec: `getSingleFetchRedirect` from `./single-fetch`
(not in the sources under verification) — builds a redirect descriptor
carrying the redirect status and the basename-adjusted `Location`. -/
def getSingleFetchRedirect (status : Nat) (headers : HList) (basename : String) : SingleFetchRedirect :=
  let location := (hget headers "Location").getD ""
  let location :=
    if basename ≠ "" ∧ basename ≠ "/" then (stripBasename location basename).getD location
    else location
  { status := status, location := location }

/-- Modelled from the spec: `serializeError` from `./errors` (not in the
sources under verification) — outside development mode the message is replaced
by a generic one and the stack is dropped, so internal error text never leaks
to the client. -/
def serializeErrorModel (message : String) (mode : ServerMode) : SerializedError :=
  if mode = ServerMode.Development then { message := message, stack := some message }
  else { message := "Unexpected Server Error", stack := none }

/-- Build a `Response` with a text body; like `new Response(string, init)` it
gains a `text/plain;charset=UTF-8` content type when none is given. -/
def mkTextResponse (s : String) (status : Nat) (statusText : String) (headers : HList) : Response :=
  { status := status, statusText := statusText,
    headers := if hhas headers "Content-Type" then headers
               else headers ++ [("Content-Type", "text/plain;charset=UTF-8")],
    body := .text s }

/-- Build a `Response` like `Response.json(body, init)`: an
`application/json` content type is added when none is given. -/
def jsonResponse (body : Body) (status : Nat) (statusText : String) (headers : HList) : Response :=
  { status := status, statusText := statusText,
    headers := if hhas headers "Content-Type" then headers
               else headers ++ [("Content-Type", "application/json")],
    body := body }

/-- Embeds `returnLastResortErrorResponse`: a plain-text 500 whose body is the
generic message, extended with `String(error)` outside production mode. -/
def returnLastResortErrorResponse (error : Thrown) (serverMode : ServerMode) : Response :=
  let message := "Unexpected Server Error"
  let message :=
    if serverMode ≠ ServerMode.Production then message ++ "\n\n" ++ error.toStr
    else message
  { status := 500, statusText := "",
    headers := [("Content-Type", "text/plain")],
    body := .text message }

/-- Embeds `errorResponseToJson`: serialize the route error's wrapped cause
(or a generic error) as JSON, keeping the original status/statusText and
adding the `X-Remix-Error: yes` diagnostic header. -/
def errorResponseToJson (errorResponse : ErrorResponse) (serverMode : ServerMode) : Response :=
  jsonResponse
    (.serializedError (serializeErrorModel
      (errorResponse.internalError.getD "Unexpected Server Error") serverMode))
    errorResponse.status errorResponse.statusText
    [("X-Remix-Error", "yes")]

/-- Word characters of the JS regex `\b` boundary. -/
def isWordChar (c : Char) : Bool :=
  c.isAlphanum || c = '_'

/-- The characters of `application/json`. -/
def jsonPat : List Char := "application/json".data

/-- Scan for a word-bounded occurrence of `application/json`, tracking the
previous character. -/
def jsonWordAux : Option Char → List Char → Bool
  | _, [] => false
  | prev, c :: rest =>
    ((c :: rest).take jsonPat.length == jsonPat
      && prev.all (fun p => ¬ isWordChar p)
      && (((c :: rest).drop jsonPat.length).head?.all (fun n => ¬ isWordChar n)))
    || jsonWordAux (some c) rest

/-- The JS regex test `/\bapplication\/json\b/.test(contentType)`. -/
def jsonWordTest (s : String) : Bool :=
  jsonWordAux none s.data

/-- Result of `response.json()` / `response.text()` in `unwrapResponse`;
`parseJson` stands for JSON parsing, `none` meaning a parse failure. -/
def unwrapResponse (parseJson : String → Option String) (r : Response) : Except Unit (Option String) :=
  match hget r.headers "Content-Type" with
  | some contentType =>
    if jsonWordTest contentType then
      match r.body with
      | .empty => .ok none
      | b =>
        match parseJson b.textOf with
        | some v => .ok (some v)
        | none => .error ()
    else .ok (some r.body.textOf)
  | none => .ok (some r.body.textOf)

/-- Outcome of `staticHandler.queryRoute`: a `Response`, a string, or any
other value (kept as its JSON-serializable rendering). -/
inductive ResourceResult where
  | response (r : Response)
  | str (s : String)
  | value (v : String)
deriving DecidableEq, Repr

/-- Embeds `handleResourceRequest` for a given `queryRoute` outcome.  Returns
the response together with the list of errors reported through
`handleError`. -/
def handleResourceRequest (serverMode : ServerMode)
    (queryResult : Except Thrown ResourceResult) : Response × List Thrown :=
  match queryResult with
  | .ok (.response r) => (r, [])
  | .ok (.str s) => (mkTextResponse s 200 "" [], [])
  | .ok (.value v) => (jsonResponse (.json v) 200 "" [], [])
  | .error t =>
    match t with
    | .response r => ({ r with headers := hset r.headers "X-Remix-Catch" "yes" }, [])
    | .errorResponse e => (errorResponseToJson e serverMode, [t])
    | .error m =>
      if m = "Expected a response from queryRoute" then
        let newError := Thrown.error "Expected a Response to be returned from resource route handler"
        (returnLastResortErrorResponse newError serverMode, [newError])
      else (returnLastResortErrorResponse t serverMode, [t])
    | .value _ => (returnLastResortErrorResponse t serverMode, [t])

/-- One entry of the ordered match list produced by `matchServerRoutes`:
route id, extracted params, and whether the route module has a default
component / error boundary. -/
structure ServerRouteMatch where
  routeId : String
  params : List (String × String)
  hasDefault : Bool
  hasErrorBoundary : Bool
deriving DecidableEq, Repr

/-- The `Build` configuration consumed by the dispatcher.  `basename = ""`
plays the role of an absent basename (`build.basename || "/"`). -/
structure Build where
  basename : String
  ssr : Bool
  prerender : List String
  assetsVersion : String
  assetsRoutes : List (String × String)
  manifestPath : String
  hasHandleDataRequest : Bool
  unstable_middleware : Bool
deriving DecidableEq, Repr

/-- First value of a repeated query parameter (`url.searchParams.get`). -/
def queryGet (q : List (String × String)) (name : String) : Option String :=
  (q.find? (·.1 = name)).map (·.2)

/-- All values of a repeated query parameter (`url.searchParams.getAll`). -/
def queryGetAll (q : List (String × String)) (name : String) : List String :=
  (q.filter (·.1 = name)).map (·.2)

/-- The ancestor prefix segments of one requested path, in the order the
source's inner `forEach` produces them: the path is rooted with `/` if
needed, split on `/`, and each `segments.slice(0, i+1)` is rejoined. -/
def ancestorPrefixes (path : String) : List String :=
  let path := if strStartsWith path "/" then path else "/" ++ path
  let segments := (strSplitChar '/' path).drop 1
  (List.range segments.length).map
    (fun i => "/" ++ String.intercalate "/" (segments.take (i + 1)))

/-- Add each element of `l` to `acc` unless already present, preserving
insertion order — the `Set<string>` accumulation of the source. -/
def addAll (acc : List String) (l : List String) : List String :=
  l.foldl (fun a y => if y ∈ a then a else a ++ [y]) acc

/-- The `paths` set of `handleManifestRequest`: every requested path expanded
into all of its ancestor prefix segments, deduplicated. -/
def expandPaths (ps : List String) : List String :=
  ps.foldl (fun acc path => addAll acc (ancestorPrefixes path)) []

/-- Insert-or-replace on an association list keyed by the first component,
matching assignment to a JS object property (`patches[routeId] = route`). -/
def assocSet : List (String × String) → String → String → List (String × String)
  | [], k, v => [(k, v)]
  | (k', v') :: rest, k, v =>
    if k' = k then (k, v) :: rest else (k', v') :: assocSet rest k v

/-- Association-list lookup by key (first match wins, like reading a JS
object property). -/
def alookup : List (String × String) → String → Option String
  | [], _ => none
  | (k0, v0) :: rest, k => if k0 = k then some v0 else alookup rest k

/-- The inner loop of `handleManifestRequest`: for every match of one
candidate path, record the asset-manifest entry of the matched route id. -/
def manifestCollect (assetsRoutes : List (String × String))
    (ms : List ServerRouteMatch) (acc : List (String × String)) : List (String × String) :=
  ms.foldl (fun a m =>
    match alookup assetsRoutes m.routeId with
    | some route => assocSet a m.routeId route
    | none => a) acc

/-- The `patches` record of `handleManifestRequest`: fold the collection step
over every expanded candidate path. -/
def manifestPatches (assetsRoutes : List (String × String))
    (matchRoutes : String → Option (List ServerRouteMatch))
    (paths : List String) : List (String × String) :=
  paths.foldl (fun acc path =>
    match matchRoutes path with
    | some ms => manifestCollect assetsRoutes ms acc
    | none => acc) []

/-- Embeds `handleManifestRequest`; `matchRoutes` is the external
`matchServerRoutes` capability with routes and basename folded in, and `q`
the request's query parameters. -/
def handleManifestRequest (build : Build)
    (matchRoutes : String → Option (List ServerRouteMatch))
    (q : List (String × String)) : Response :=
  if queryGet q "version" ≠ some build.assetsVersion then
    { status := 204, statusText := "",
      headers := [("X-Remix-Reload-Document", "true")], body := .empty }
  else if (queryGet q "p").isSome then
    let patches := manifestPatches build.assetsRoutes matchRoutes (expandPaths (queryGetAll q "p"))
    jsonResponse (.jsonAssoc patches) 200 ""
      [("Cache-Control", "public, max-age=31536000, immutable")]
  else mkTextResponse "Invalid Request" 400 "" []

/-- The `baseServerHandoff` value: basename, SSR flag and SPA-mode flag of
the build (other build fields are not relevant here). -/
structure ServerHandoff where
  basename : String
  ssr : Bool
  isSpaMode : Bool
deriving DecidableEq, Repr

/-- The entry context handed to the external render function, keeping the
fields the dispatcher itself assembles.  `serverHandoffString` records which
handoff value was stringified and whether critical CSS was included. -/
structure EntryCtx where
  staticHandlerContext : Ctx
  serverHandoffString : ServerHandoff × Option String
  serverHandoffStream : HandoffState
  criticalCss : Option String
deriving DecidableEq, Repr

/-- One invocation of the user-supplied render function
(`handleDocumentRequestFunction(request, statusCode, headers, entryContext,
loadContext)`), keeping the arguments the dispatcher computes. -/
structure RenderCall where
  statusCode : Nat
  headers : HList
  entryContext : EntryCtx
deriving DecidableEq, Repr

/-- External collaborators of the document handler: document-header
computation, error sanitization/serialization, boundary-error context
recomputation, JSON parsing for `unwrapResponse`, and the render function
itself (indexed by pass number, since the two passes are distinct calls). -/
structure DocEnv where
  getDocumentHeaders : Ctx → HList
  sanitizeErrors : List (String × Thrown) → ServerMode → List (String × Thrown)
  serializeErrors : Option (List (String × Thrown)) → ServerMode → Option (List (String × SerializedError))
  getStaticContextFromError : Ctx → Thrown → Ctx
  parseJson : String → Option String
  render : Nat → RenderCall → Except Thrown Response

/-- The handoff `state` value computed from a context. -/
def mkState (env : DocEnv) (mode : ServerMode) (ctx : Ctx) : HandoffState :=
  { loaderData := ctx.loaderData, actionData := ctx.actionData,
    errors := env.serializeErrors ctx.errors mode }

/-- Applies `sanitizeErrors` to a context's captured errors when present
(`if (context.errors) context.errors = sanitizeErrors(...)`). -/
def sanitizeCtx (env : DocEnv) (mode : ServerMode) (ctx : Ctx) : Ctx :=
  match ctx.errors with
  | some errs => { ctx with errors := some (env.sanitizeErrors errs mode) }
  | none => ctx

/-- Whether a captured context error is reported through `handleError`
(`!isRouteErrorResponse(err) || err.error`). -/
def ctxErrorReportable : Thrown → Bool
  | .errorResponse e => e.internalError.isSome
  | _ => true

/-- The context as it stands when the first render pass is invoked: the query
result with its errors sanitized. -/
def docCtx1 (env : DocEnv) (mode : ServerMode) (ctx : Ctx) : Ctx :=
  sanitizeCtx env mode ctx

/-- The entry context assembled for the first render pass. -/
def docEntryCtx1 (env : DocEnv) (mode : ServerMode) (build : Build)
    (isSpaMode : Bool) (cc : Option String) (ctx : Ctx) : EntryCtx :=
  let ctx1 := docCtx1 env mode ctx
  { staticHandlerContext := ctx1,
    serverHandoffString :=
      ({ basename := build.basename, ssr := build.ssr, isSpaMode := isSpaMode }, cc),
    serverHandoffStream := mkState env mode ctx1,
    criticalCss := cc }

/-- The first render invocation: status code of the (sanitized) context,
headers computed by `getDocumentHeaders` from the query result, and the fresh
entry context. -/
def docCall1 (env : DocEnv) (mode : ServerMode) (build : Build)
    (isSpaMode : Bool) (cc : Option String) (ctx : Ctx) : RenderCall :=
  { statusCode := (docCtx1 env mode ctx).statusCode,
    headers := env.getDocumentHeaders ctx,
    entryContext := docEntryCtx1 env mode build isSpaMode cc ctx }

/-- The error carried into the second render pass: a thrown `Response` is
unwrapped into an `ErrorResponse` when its body can be read, unwrap failures
are swallowed, and every other thrown value is kept as-is. -/
def errorForSecondRender (env : DocEnv) (e : Thrown) : Thrown :=
  match e with
  | .response r =>
    match unwrapResponse env.parseJson r with
    | .ok data => .errorResponse
      { status := r.status, statusText := r.statusText, data := data, internalError := none }
    | .error _ => e
  | _ => e

/-- The recomputed static context for the second render pass: the external
`getStaticContextFromError` attributes the first-pass error to the correct
boundary route, and the result's errors are sanitized again. -/
def docCtx2 (env : DocEnv) (mode : ServerMode) (ctx : Ctx) (e1 : Thrown) : Ctx :=
  sanitizeCtx env mode
    (env.getStaticContextFromError (docCtx1 env mode ctx) (errorForSecondRender env e1))

/-- The second render invocation: the status code and static context come
from the recomputed error context and the handoff state is rebuilt from it
(without critical CSS in the handoff string), while the headers are the
first-pass headers. -/
def docCall2 (env : DocEnv) (mode : ServerMode) (build : Build)
    (isSpaMode : Bool) (cc : Option String) (ctx : Ctx) (e1 : Thrown) : RenderCall :=
  let ctx2 := docCtx2 env mode ctx e1
  { statusCode := ctx2.statusCode,
    headers := env.getDocumentHeaders ctx,
    entryContext :=
      { docEntryCtx1 env mode build isSpaMode cc ctx with
        staticHandlerContext := ctx2,
        serverHandoffString :=
          ({ basename := build.basename, ssr := build.ssr, isSpaMode := isSpaMode }, none),
        serverHandoffStream := mkState env mode ctx2 } }

/-- Result of the document handler: the response, the errors reported through
`handleError`, and the render invocations that were made. -/
structure DocOutcome where
  response : Response
  reports : List Thrown
  renders : List RenderCall
deriving Repr

/-- Embeds `renderHtml`: bodyless statuses short-circuit, reportable context
errors are surfaced, and the render function is tried at most twice with the
last-resort 500 as terminal fallback. -/
def renderHtml (env : DocEnv) (mode : ServerMode) (build : Build)
    (isSpaMode : Bool) (cc : Option String) (ctx : Ctx) : DocOutcome :=
  if SERVER_NO_BODY_STATUS_CODES.contains ctx.statusCode then
    { response := { status := ctx.statusCode, statusText := "",
                    headers := env.getDocumentHeaders ctx, body := .empty },
      reports := [], renders := [] }
  else
    let ctxReports := ((ctx.errors.getD []).map Prod.snd).filter ctxErrorReportable
    match env.render 1 (docCall1 env mode build isSpaMode cc ctx) with
    | .ok r =>
      { response := r, reports := ctxReports,
        renders := [docCall1 env mode build isSpaMode cc ctx] }
    | .error e1 =>
      match env.render 2 (docCall2 env mode build isSpaMode cc ctx e1) with
      | .ok r =>
        { response := r, reports := ctxReports ++ [e1],
          renders := [docCall1 env mode build isSpaMode cc ctx,
                      docCall2 env mode build isSpaMode cc ctx e1] }
      | .error e2 =>
        { response := returnLastResortErrorResponse e2 mode,
          reports := ctxReports ++ [e1, e2],
          renders := [docCall1 env mode build isSpaMode cc ctx,
                      docCall2 env mode build isSpaMode cc ctx e1] }

/-- Embeds `handleDocumentRequest`: a throw during the query phase is caught
once and yields a direct 500 with no render; a query result that is already a
`Response` is returned; otherwise the context is rendered. -/
def handleDocumentRequest (env : DocEnv) (mode : ServerMode) (build : Build)
    (isSpaMode : Bool) (cc : Option String)
    (queryResult : Except Thrown (Sum Response Ctx)) : DocOutcome :=
  match queryResult with
  | .error e =>
    { response := { status := 500, statusText := "", headers := [], body := .empty },
      reports := [e], renders := [] }
  | .ok (.inl r) => { response := r, reports := [], renders := [] }
  | .ok (.inr ctx) => renderHtml env mode build isSpaMode cc ctx

/-- Embeds the path-normalization block of `requestHandler` (lines 152–167):
a basename-relative `/_root.data` becomes the basename itself, else a
trailing `.data` suffix is stripped; then a single trailing slash is removed
unless the basename-relative result is the root `/`. -/
def normalizePath (basename pathname : String) : String :=
  let normalizedBasename := if basename = "" then "/" else basename
  let np :=
    if stripBasename pathname normalizedBasename = some "/_root.data" then normalizedBasename
    else if strEndsWith pathname ".data" then pathname.dropRight 5
    else pathname
  if stripBasename np normalizedBasename ≠ some "/" ∧ strEndsWith np "/" then np.dropRight 1
  else np

/-- The configuration-error message built when constructing the middleware
context provider fails. -/
def ctorErrorMessage (msg : String) : String :=
  "Unable to create initial `unstable_RouterContextProvider` instance. " ++
  "Please confirm you are returning an instance of " ++
  "`Map<unstable_routerContext, unknown>` from your `getLoadContext` function." ++
  "\n\nError: " ++ msg

/-- The 404 route error reported when a non-prerendered path is requested
under `ssr:false`. -/
def ssr404Error (decodedPath : String) : ErrorResponse :=
  { status := 404, statusText := "Not Found",
    data := some ("Refusing to SSR the path `" ++ decodedPath ++
      "` because `ssr:false` is set and the path is not included in the `prerender` config, so in production the path will be a 404."),
    internalError := none }

/-- Params of the first entry of a match list, the empty mapping when there
is no match. -/
def headParams : Option (List ServerRouteMatch) → List (String × String)
  | some (m :: _) => m.params
  | _ => []

/-- Which of the classifier's exits produced the response. -/
inductive Strategy where
  | configError
  | ssrNotFound
  | manifest
  | singleFetch (redirectRepack : Bool)
  | resource (routeId : String)
  | document (spaMode : Bool)
deriving DecidableEq, Repr

/-- Exits that return their response directly, before the final HEAD
body-stripping step. -/
def Strategy.earlyExit : Strategy → Bool
  | .configError => true
  | .ssrNotFound => true
  | .manifest => true
  | .singleFetch true => true
  | _ => false

/-- An incoming request: method, URL path, query parameters, and whether the
build-time `X-React-Router-SPA-Mode: yes` header is present. -/
structure Request where
  method : String
  pathname : String
  query : List (String × String)
  spaModeHeaderYes : Bool
deriving DecidableEq, Repr

/-- External collaborators of the dispatcher: URI decoding, the manifest-path
computation, the route matcher, the single-fetch strategies, the optional
`handleDataRequest` hook, the resource-route query, the document query, and
possible failures of the middleware context constructor or of matching
during manifest handling. -/
structure Env where
  decodeURI : String → String
  getManifestPath : String → String → String
  matchRoutes : String → Option (List ServerRouteMatch)
  manifestError : Option Thrown
  contextCtorError : Option String
  singleFetch : String → String → Response
  dataHook : Response → List (String × String) → Response
  resourceQuery : String → Except Thrown ResourceResult
  docQuery : Except Thrown (Sum Response Ctx)
  criticalCss : Option String
  doc : DocEnv

/-- Result of one dispatched request: final response, the response before
HEAD body-stripping (equal to `response` on early-exit paths), errors
reported through the error handler together with the params they carried,
the selected strategy, the final SPA-mode flag, the params passed to the
`handleDataRequest` hook when it ran, and the render invocations made. -/
structure Outcome where
  response : Response
  raw : Response
  reports : List (Thrown × List (String × String))
  strategy : Strategy
  spaMode : Bool
  hookParams : Option (List (String × String))
  renders : List RenderCall

/-- The common exit of the dispatcher: the strategy response is returned,
with the body stripped for HEAD requests while status, statusText and
headers are kept. -/
def finish (req : Request) (strat : Strategy) (spa : Bool)
    (hookParams : Option (List (String × String)))
    (reports : List (Thrown × List (String × String)))
    (renders : List RenderCall) (resp : Response) : Outcome :=
  let final :=
    if req.method = "HEAD" then
      { status := resp.status, statusText := resp.statusText,
        headers := resp.headers, body := Body.empty }
    else resp
  { response := final, raw := resp, reports := reports, strategy := strat,
    spaMode := spa, hookParams := hookParams, renders := renders }

/-- The dispatcher body after load-context construction: path normalization,
the `ssr:false` gate, the manifest endpoint, and the three strategies, with
the HEAD body-stripping pass on the common exit. -/
def requestHandlerInner (env : Env) (mode : ServerMode) (build : Build)
    (req : Request) : Outcome :=
  let normalizedBasename := if build.basename = "" then "/" else build.basename
  let normalizedPath := normalizePath build.basename req.pathname
  let isSpaMode0 := req.spaModeHeaderYes
  let decodedPath := env.decodeURI normalizedPath
  let ssrCheck : Sum (Response × Thrown) Bool :=
    if build.ssr then .inr isSpaMode0
    else if build.prerender = [] then .inr true
    else if decodedPath ∉ build.prerender ∧ (decodedPath ++ "/") ∉ build.prerender then
      if strEndsWith req.pathname ".data" then
        .inl (mkTextResponse "Not Found" 404 "Not Found" [],
              Thrown.errorResponse (ssr404Error decodedPath))
      else .inr true
    else .inr isSpaMode0
  match ssrCheck with
  | .inl (resp, err) =>
    { response := resp, raw := resp, reports := [(err, [])],
      strategy := .ssrNotFound, spaMode := isSpaMode0, hookParams := none, renders := [] }
  | .inr isSpaMode =>
    if req.pathname = env.getManifestPath build.manifestPath normalizedBasename then
      match env.manifestError with
      | some e =>
        let resp := mkTextResponse "Unknown Server Error" 500 "" []
        { response := resp, raw := resp, reports := [(e, [])],
          strategy := .manifest, spaMode := isSpaMode, hookParams := none, renders := [] }
      | none =>
        let resp := handleManifestRequest build env.matchRoutes req.query
        { response := resp, raw := resp, reports := [],
          strategy := .manifest, spaMode := isSpaMode, hookParams := none, renders := [] }
    else
      let matchList := env.matchRoutes normalizedPath
      let params := headParams matchList
      if strEndsWith req.pathname ".data" then
        let sfMatches := env.matchRoutes normalizedPath
        let response0 := env.singleFetch req.method normalizedPath
        if build.hasHandleDataRequest then
          let sfParams := headParams sfMatches
          let response1 := env.dataHook response0 sfParams
          if isRedirectResponse response1 then
            let redir := getSingleFetchRedirect response1.status response1.headers build.basename
            let result : SFResults :=
              if req.method = "GET" then .wrapped redir else .single redir
            let resp : Response :=
              { status := SINGLE_FETCH_REDIRECT_STATUS, statusText := "",
                headers := hset response1.headers "Content-Type" "text/x-script",
                body := .turbo (.redirect result) }
            { response := resp, raw := resp, reports := [],
              strategy := .singleFetch true, spaMode := isSpaMode,
              hookParams := some sfParams, renders := [] }
          else
            finish req (.singleFetch false) isSpaMode (some sfParams) [] [] response1
        else
          finish req (.singleFetch false) isSpaMode none [] [] response0
      else
        match env.matchRoutes normalizedPath with
        | some ms =>
          match ms.getLast? with
          | some lastMatch =>
            if ¬ isSpaMode ∧ ¬ lastMatch.hasDefault ∧ ¬ lastMatch.hasErrorBoundary then
              let rr := handleResourceRequest mode (env.resourceQuery lastMatch.routeId)
              finish req (.resource lastMatch.routeId) isSpaMode none
                (rr.2.map (fun t => (t, params))) [] rr.1
            else
              let o := handleDocumentRequest env.doc mode build isSpaMode env.criticalCss env.docQuery
              finish req (.document isSpaMode) isSpaMode none
                (o.reports.map (fun t => (t, params))) o.renders o.response
          | none =>
            let o := handleDocumentRequest env.doc mode build isSpaMode env.criticalCss env.docQuery
            finish req (.document isSpaMode) isSpaMode none
              (o.reports.map (fun t => (t, params))) o.renders o.response
        | none =>
          let o := handleDocumentRequest env.doc mode build isSpaMode env.criticalCss env.docQuery
          finish req (.document isSpaMode) isSpaMode none
            (o.reports.map (fun t => (t, params))) o.renders o.response

/-- Embeds `requestHandler`: when the middleware flag is on and the context
provider cannot be constructed, the configuration error is reported and a
last-resort 500 is returned directly; otherwise the dispatcher body runs. -/
def requestHandler (env : Env) (mode : ServerMode) (build : Build)
    (req : Request) : Outcome :=
  match build.unstable_middleware, env.contextCtorError with
  | true, some msg =>
    let err := Thrown.error (ctorErrorMessage msg)
    let resp := returnLastResortErrorResponse err mode
    { response := resp, raw := resp, reports := [(err, [])],
      strategy := .configError, spaMode := req.spaModeHeaderYes,
      hookParams := none, renders := [] }
  | _, _ => requestHandlerInner env mode build req

/-- The specification's description of path normalization, in its own words:
first check whether the basename-relative path is exactly `/_root.data` (then
the normalized path becomes the root/basename), else strip a trailing `.data`
suffix when present; then strip a single trailing slash unless the
basename-relative result is the root `/`. -/
def normalizePathSpec (basename pathname : String) : String :=
  let base := if basename = "" then "/" else basename
  let p :=
    if stripBasename pathname base = some "/_root.data" then base
    else if strEndsWith pathname ".data" then pathname.dropRight 5
    else pathname
  if stripBasename p base = some "/" then p
  else if strEndsWith p "/" then p.dropRight 1
  else p

/-- C8: the source's path normalization agrees with the specification's
description on every basename and request path: `/_root.data` relative to the
basename normalizes to the basename, else a trailing `.data` suffix is
stripped, and then a single trailing slash is stripped unless the
basename-relative result is the root `/`. -/
theorem c8_path_normalization (basename pathname : String) :
    normalizePath basename pathname = normalizePathSpec basename pathname := by
  have key : ∀ (A B : Prop) (iA : Decidable A) (iB : Decidable B) (x y : String),
      (if ¬ A ∧ B then y else x) = if A then x else if B then y else x := by
    intro A B iA iB x y
    by_cases hA : A <;> by_cases hB : B <;> simp [hA, hB]
  simp only [normalizePath, normalizePathSpec]
  rw [key]

/-- C7: for a resource request whose route query returns normally, a result
that is already a `Response` is returned as-is (and nothing is reported); a
string result is wrapped in a plain-text 200 response whose body is that
string; any other result is serialized as a JSON 200 response. -/
theorem c7_resource_success_mapping (mode : ServerMode) (res : ResourceResult) :
    (∀ r, res = .response r → handleResourceRequest mode (.ok res) = (r, [])) ∧
    (∀ s, res = .str s →
      (handleResourceRequest mode (.ok res)).1.status = 200 ∧
      (handleResourceRequest mode (.ok res)).1.body = Body.text s ∧
      hget (handleResourceRequest mode (.ok res)).1.headers "Content-Type" =
        some "text/plain;charset=UTF-8" ∧
      (handleResourceRequest mode (.ok res)).2 = []) ∧
    (∀ v, res = .value v →
      (handleResourceRequest mode (.ok res)).1.status = 200 ∧
      (handleResourceRequest mode (.ok res)).1.body = Body.json v ∧
      hget (handleResourceRequest mode (.ok res)).1.headers "Content-Type" =
        some "application/json" ∧
      (handleResourceRequest mode (.ok res)).2 = []) := by
  refine ⟨?_, ?_, ?_⟩
  · intro r h; subst h; rfl
  · intro s h; subst h; exact ⟨rfl, rfl, rfl, rfl⟩
  · intro v h; subst h; exact ⟨rfl, rfl, rfl, rfl⟩

/-- C7 witness: a resource route returning the plain string `ok` yields a 200
text response with body `ok`, and a plain value is JSON-serialized. -/
theorem c7_resource_success_mapping_witness :
    (handleResourceRequest ServerMode.Production (.ok (.str "ok"))).1.status = 200 ∧
    (handleResourceRequest ServerMode.Production (.ok (.str "ok"))).1.body = Body.text "ok" := by
  have h := (c7_resource_success_mapping ServerMode.Production (.str "ok")).2.1 "ok" rfl
  exact ⟨h.1, h.2.1⟩

/-- C6: for a resource request whose route query throws, a thrown `Response`
is returned directly with the `X-Remix-Catch: yes` header added; a thrown
structured route error is reported and serialized to a JSON response with the
original status/statusText and the `X-Remix-Error: yes` header; the sentinel
error `Expected a response from queryRoute` is converted to a
handler-contract-violation error and escalated to a generic 500; any other
thrown value is reported and escalated to a generic 500. -/
theorem c6_resource_failure_taxonomy (mode : ServerMode) (t : Thrown) :
    (∀ r, t = .response r →
      handleResourceRequest mode (.error t) =
        ({ r with headers := hset r.headers "X-Remix-Catch" "yes" }, [])) ∧
    (∀ e, t = .errorResponse e →
      (handleResourceRequest mode (.error t)).2 = [t] ∧
      (handleResourceRequest mode (.error t)).1.status = e.status ∧
      (handleResourceRequest mode (.error t)).1.statusText = e.statusText ∧
      hget (handleResourceRequest mode (.error t)).1.headers "X-Remix-Error" = some "yes" ∧
      hget (handleResourceRequest mode (.error t)).1.headers "Content-Type" =
        some "application/json" ∧
      (handleResourceRequest mode (.error t)).1.body =
        Body.serializedError (serializeErrorModel
          (e.internalError.getD "Unexpected Server Error") mode)) ∧
    (t = .error "Expected a response from queryRoute" →
      handleResourceRequest mode (.error t) =
        (returnLastResortErrorResponse
          (Thrown.error "Expected a Response to be returned from resource route handler") mode,
         [Thrown.error "Expected a Response to be returned from resource route handler"]) ∧
      (handleResourceRequest mode (.error t)).1.status = 500) ∧
    (∀ m, t = .error m → m ≠ "Expected a response from queryRoute" →
      handleResourceRequest mode (.error t) = (returnLastResortErrorResponse t mode, [t]) ∧
      (handleResourceRequest mode (.error t)).1.status = 500) ∧
    (∀ s, t = .value s →
      handleResourceRequest mode (.error t) = (returnLastResortErrorResponse t mode, [t]) ∧
      (handleResourceRequest mode (.error t)).1.status = 500) := by
  refine ⟨?_, ?_, ?_, ?_, ?_⟩
  · intro r h; subst h; rfl
  · intro e h; subst h; exact ⟨rfl, rfl, rfl, rfl, rfl, rfl⟩
  · intro h; subst h; exact ⟨rfl, rfl⟩
  · intro m h hm; subst h
    simp only [handleResourceRequest, if_neg hm]
    exact ⟨trivial, rfl⟩
  · intro s h; subst h; exact ⟨rfl, rfl⟩

/-- C6 witness: a thrown structured route error with status 422 is reported
and serialized to a JSON response carrying status 422 and the
`X-Remix-Error: yes` header. -/
theorem c6_resource_failure_taxonomy_witness :
    (handleResourceRequest ServerMode.Production
      (.error (.errorResponse ⟨422, "Unprocessable", none, some "boom"⟩))).1.status = 422 ∧
    hget (handleResourceRequest ServerMode.Production
      (.error (.errorResponse ⟨422, "Unprocessable", none, some "boom"⟩))).1.headers
      "X-Remix-Error" = some "yes" := by
  have h := (c6_resource_failure_taxonomy ServerMode.Production
    (.errorResponse ⟨422, "Unprocessable", none, some "boom"⟩)).2.1
    ⟨422, "Unprocessable", none, some "boom"⟩ rfl
  exact ⟨h.2.1, h.2.2.2.1⟩

/-- Membership in the deduplicating accumulation: exactly the old elements
and the added ones. -/
theorem mem_addAll (x : String) (l : List String) :
    ∀ acc, x ∈ addAll acc l ↔ x ∈ acc ∨ x ∈ l := by
  induction l with
  | nil => intro acc; simp [addAll]
  | cons y t ih =>
    intro acc
    show x ∈ addAll (if y ∈ acc then acc else acc ++ [y]) t ↔ _
    rw [ih]
    by_cases h : y ∈ acc
    · simp only [if_pos h, List.mem_cons]
      constructor
      · rintro (hx | hx)
        · exact Or.inl hx
        · exact Or.inr (Or.inr hx)
      · rintro (hx | hx | hx)
        · exact Or.inl hx
        · exact Or.inl (by rw [hx]; exact h)
        · exact Or.inr hx
    · simp only [if_neg h, List.mem_append, List.mem_singleton, List.mem_cons]
      tauto

/-- Membership in the expanded path set: exactly the ancestor prefixes of the
requested paths. -/
theorem mem_expandPaths (x : String) (ps : List String) :
    x ∈ expandPaths ps ↔ ∃ p ∈ ps, x ∈ ancestorPrefixes p := by
  have aux : ∀ (l : List String) (acc : List String),
      x ∈ l.foldl (fun acc path => addAll acc (ancestorPrefixes path)) acc ↔
        x ∈ acc ∨ ∃ p ∈ l, x ∈ ancestorPrefixes p := by
    intro l
    induction l with
    | nil => intro acc; simp
    | cons q t ih =>
      intro acc
      rw [List.foldl_cons, ih, mem_addAll]
      simp only [List.exists_mem_cons_iff]
      tauto
  rw [expandPaths, aux]
  simp

/-- Lookup after insert-or-replace. -/
theorem alookup_assocSet (k v q : String) : ∀ (l : List (String × String)),
    alookup (assocSet l k v) q = if q = k then some v else alookup l q := by
  intro l
  induction l with
  | nil =>
    by_cases h : q = k
    · subst h; simp [assocSet, alookup]
    · simp [assocSet, alookup, h, Ne.symm h]
  | cons p rest ih =>
    obtain ⟨k0, v0⟩ := p
    by_cases h0 : k0 = k
    · subst h0
      by_cases h : q = k0
      · subst h; simp [assocSet, alookup]
      · simp [assocSet, alookup, h, Ne.symm h]
    · by_cases h : k0 = q
      · have hqk : ¬ q = k := fun hh => h0 (by rw [h, hh])
        simp [assocSet, alookup, h0, h, hqk]
      · simp [assocSet, alookup, h0, h, ih]

/-- Lookup in the record accumulated over one candidate path's matches: a
route id reached by some match (and present in the asset manifest) maps to
its asset-manifest entry, every other id keeps its previous mapping. -/
theorem alookup_manifestCollect (assets : List (String × String)) (q : String) :
    ∀ (ms : List ServerRouteMatch) (acc : List (String × String)),
    alookup (manifestCollect assets ms acc) q =
      if (∃ m ∈ ms, m.routeId = q) ∧ (alookup assets q).isSome then alookup assets q
      else alookup acc q := by
  intro ms
  induction ms with
  | nil => intro acc; simp [manifestCollect]
  | cons m ms ih =>
    intro acc
    show alookup (manifestCollect assets ms
      (match alookup assets m.routeId with
       | some route => assocSet acc m.routeId route
       | none => acc)) q = _
    rw [ih]
    by_cases hq : m.routeId = q
    · subst hq
      cases hA : alookup assets m.routeId with
      | none => simp [hA]
      | some r => simp [hA, alookup_assocSet, List.exists_mem_cons_iff]
    · have hqne : ¬ q = m.routeId := fun hh => hq hh.symm
      have hiff : (∃ x ∈ m :: ms, x.routeId = q) ↔ ∃ x ∈ ms, x.routeId = q := by
        simp [List.exists_mem_cons_iff, hq]
      have step : alookup (match alookup assets m.routeId with
          | some route => assocSet acc m.routeId route
          | none => acc) q = alookup acc q := by
        cases alookup assets m.routeId with
        | none => rfl
        | some r => exact (alookup_assocSet m.routeId r q acc).trans (if_neg hqne)
      rw [step]
      simp only [hiff]

/-- Lookup in the full patches record: a route id maps to its asset-manifest
entry exactly when some expanded candidate path matches a route with that id,
and to nothing otherwise — deduplication by id can never associate a route id
with anything else. -/
theorem alookup_manifestPatches (assets : List (String × String))
    (matchRoutes : String → Option (List ServerRouteMatch)) (q : String)
    (paths : List String) :
    alookup (manifestPatches assets matchRoutes paths) q =
      if ∃ p ∈ paths, ∃ m ∈ (matchRoutes p).getD [], m.routeId = q
      then alookup assets q else none := by
  have aux : ∀ (l : List String) (acc : List (String × String)),
      alookup (l.foldl (fun acc path =>
        match matchRoutes path with
        | some ms => manifestCollect assets ms acc
        | none => acc) acc) q =
      if (∃ p ∈ l, ∃ m ∈ (matchRoutes p).getD [], m.routeId = q) ∧ (alookup assets q).isSome
      then alookup assets q else alookup acc q := by
    intro l
    induction l with
    | nil => intro acc; simp
    | cons p t ih =>
      intro acc
      rw [List.foldl_cons, ih]
      cases hM : matchRoutes p with
      | none => simp [hM, List.exists_mem_cons_iff]
      | some ms =>
        have iteOr : ∀ (P Q S : Prop) (iP : Decidable P) (iQ : Decidable Q)
            (iS : Decidable S) (a b : Option String),
            (if Q ∧ S then a else if P ∧ S then a else b) =
              if (P ∨ Q) ∧ S then a else b := by
          intro P Q S iP iQ iS a b
          by_cases hP : P <;> by_cases hQ : Q <;> by_cases hS : S <;> simp [hP, hQ, hS]
        simp only [hM]
        rw [alookup_manifestCollect]
        simp only [hM, List.exists_mem_cons_iff, Option.getD_some]
        rw [iteOr]
  rw [manifestPatches, aux]
  cases hA : alookup assets q with
  | none => simp [hA, alookup]
  | some r => simp [hA, alookup]

/-- C4: the manifest endpoint answers a stale `version` with a 204 carrying
the reload-signal header, a missing `p` parameter with a 400, and otherwise
expands every requested path into all of its ancestor prefix segments,
matches each candidate, collects the asset-manifest entries of the matched
route ids into a flat id-keyed mapping (deduplicated by id), and responds
200 JSON with the immutable cache header. -/
theorem c4_manifest_patch_server (build : Build)
    (matchRoutes : String → Option (List ServerRouteMatch)) (q : List (String × String)) :
    (queryGet q "version" ≠ some build.assetsVersion →
      (handleManifestRequest build matchRoutes q).status = 204 ∧
      hget (handleManifestRequest build matchRoutes q).headers "X-Remix-Reload-Document" =
        some "true" ∧
      (handleManifestRequest build matchRoutes q).body = Body.empty) ∧
    (queryGet q "version" = some build.assetsVersion → queryGet q "p" = none →
      (handleManifestRequest build matchRoutes q).status = 400) ∧
    (queryGet q "version" = some build.assetsVersion → (queryGet q "p").isSome →
      (handleManifestRequest build matchRoutes q).status = 200 ∧
      hget (handleManifestRequest build matchRoutes q).headers "Cache-Control" =
        some "public, max-age=31536000, immutable" ∧
      hget (handleManifestRequest build matchRoutes q).headers "Content-Type" =
        some "application/json" ∧
      (handleManifestRequest build matchRoutes q).body = Body.jsonAssoc
        (manifestPatches build.assetsRoutes matchRoutes (expandPaths (queryGetAll q "p"))) ∧
      (∀ x, x ∈ expandPaths (queryGetAll q "p") ↔
        ∃ p ∈ queryGetAll q "p", x ∈ ancestorPrefixes p) ∧
      (∀ rid, alookup (manifestPatches build.assetsRoutes matchRoutes
          (expandPaths (queryGetAll q "p"))) rid =
        if ∃ path ∈ expandPaths (queryGetAll q "p"),
            ∃ m ∈ (matchRoutes path).getD [], m.routeId = rid
        then alookup build.assetsRoutes rid else none)) := by
  refine ⟨?_, ?_, ?_⟩
  · intro h
    rw [handleManifestRequest, if_pos h]
    exact ⟨rfl, rfl, rfl⟩
  · intro hv hp
    rw [handleManifestRequest, if_neg (by simp [hv]), if_neg (by simp [hp])]
    rfl
  · intro hv hp
    rw [handleManifestRequest, if_neg (by simp [hv]), if_pos hp]
    refine ⟨rfl, rfl, rfl, rfl, fun x => mem_expandPaths x _, fun rid => ?_⟩
    exact alookup_manifestPatches build.assetsRoutes matchRoutes rid _

/-- C4 witness: with matching version and `p=/parent/child`, the candidates
are exactly `/parent` and `/parent/child`, the response is a 200 with the
immutable cache header, and the patches contain the entries of the routes
matched at either candidate. -/
theorem c4_manifest_patch_server_witness :
    (handleManifestRequest
      { basename := "", ssr := true, prerender := [], assetsVersion := "v1",
        assetsRoutes := [("root", "R"), ("routes/parent", "P"), ("routes/parent.child", "C")],
        manifestPath := "/__manifest", hasHandleDataRequest := false,
        unstable_middleware := false }
      (fun p =>
        if p = "/parent" then
          some [⟨"root", [], true, true⟩, ⟨"routes/parent", [], true, false⟩]
        else if p = "/parent/child" then
          some [⟨"root", [], true, true⟩, ⟨"routes/parent", [], true, false⟩,
                ⟨"routes/parent.child", [], true, false⟩]
        else none)
      [("version", "v1"), ("p", "/parent/child")]).status = 200 ∧
    expandPaths ["/parent/child"] = ["/parent", "/parent/child"] := by
  have h := (c4_manifest_patch_server
    { basename := "", ssr := true, prerender := [], assetsVersion := "v1",
      assetsRoutes := [("root", "R"), ("routes/parent", "P"), ("routes/parent.child", "C")],
      manifestPath := "/__manifest", hasHandleDataRequest := false,
      unstable_middleware := false }
    (fun p =>
      if p = "/parent" then
        some [⟨"root", [], true, true⟩, ⟨"routes/parent", [], true, false⟩]
      else if p = "/parent/child" then
        some [⟨"root", [], true, true⟩, ⟨"routes/parent", [], true, false⟩,
              ⟨"routes/parent.child", [], true, false⟩]
      else none)
    [("version", "v1"), ("p", "/parent/child")]).2.2 rfl (by decide)
  exact ⟨h.1, by decide⟩

/-- C1: for every document request, the render function is invoked at most
twice; a throw during the data-query phase is reported and yields a direct
500 with no render invocation; a first-render throw is reported and followed
by exactly one more render invocation whose static context is the boundary
context recomputed by `getStaticContextFromError` from the thrown error (with
errors re-sanitized); if the second invocation also throws, the final
response has status 500 and its body is the generic message extended with the
error text exactly when the server mode is not production. -/
theorem c1_document_two_pass_recovery (env : DocEnv) (mode : ServerMode)
    (build : Build) (spa : Bool) (cc : Option String) :
    (∀ q, (handleDocumentRequest env mode build spa cc q).renders.length ≤ 2) ∧
    (∀ e, (handleDocumentRequest env mode build spa cc (.error e)).response.status = 500 ∧
      (handleDocumentRequest env mode build spa cc (.error e)).renders = [] ∧
      (handleDocumentRequest env mode build spa cc (.error e)).reports = [e]) ∧
    (∀ ctx e1, SERVER_NO_BODY_STATUS_CODES.contains ctx.statusCode = false →
      env.render 1 (docCall1 env mode build spa cc ctx) = .error e1 →
      (handleDocumentRequest env mode build spa cc (.ok (.inr ctx))).renders =
        [docCall1 env mode build spa cc ctx, docCall2 env mode build spa cc ctx e1] ∧
      e1 ∈ (handleDocumentRequest env mode build spa cc (.ok (.inr ctx))).reports ∧
      (docCall2 env mode build spa cc ctx e1).entryContext.staticHandlerContext =
        docCtx2 env mode ctx e1 ∧
      docCtx2 env mode ctx e1 = sanitizeCtx env mode
        (env.getStaticContextFromError (docCtx1 env mode ctx) (errorForSecondRender env e1))) ∧
    (∀ ctx e1 e2, SERVER_NO_BODY_STATUS_CODES.contains ctx.statusCode = false →
      env.render 1 (docCall1 env mode build spa cc ctx) = .error e1 →
      env.render 2 (docCall2 env mode build spa cc ctx e1) = .error e2 →
      (handleDocumentRequest env mode build spa cc (.ok (.inr ctx))).response.status = 500 ∧
      (mode = ServerMode.Production →
        (handleDocumentRequest env mode build spa cc (.ok (.inr ctx))).response.body =
          Body.text "Unexpected Server Error") ∧
      (mode ≠ ServerMode.Production →
        (handleDocumentRequest env mode build spa cc (.ok (.inr ctx))).response.body =
          Body.text ("Unexpected Server Error" ++ "\n\n" ++ e2.toStr))) := by
  refine ⟨?_, ?_, ?_, ?_⟩
  · intro q
    cases q with
    | error e => simp [handleDocumentRequest]
    | ok s =>
      cases s with
      | inl r => simp [handleDocumentRequest]
      | inr ctx =>
        simp only [handleDocumentRequest, renderHtml]
        split
        · simp
        · split
          · simp
          · split <;> simp
  · intro e; exact ⟨rfl, rfl, rfl⟩
  · intro ctx e1 hnb h1
    simp only [handleDocumentRequest, renderHtml, hnb, Bool.false_eq_true,
      if_false, h1]
    cases h2 : env.render 2 (docCall2 env mode build spa cc ctx e1) with
    | ok r => simp [docCall2, docEntryCtx1, docCtx2]
    | error e2 => simp [docCall2, docEntryCtx1, docCtx2]
  · intro ctx e1 e2 hnb h1 h2
    simp only [handleDocumentRequest, renderHtml, hnb, Bool.false_eq_true,
      if_false, h1, h2]
    refine ⟨rfl, ?_, ?_⟩
    · intro hmode
      simp [returnLastResortErrorResponse, hmode]
    · intro hmode
      simp [returnLastResortErrorResponse, hmode]

/-- A concrete document-handler environment whose render function always
throws, used to exercise the two-pass recovery concretely. -/
def docEnvBoom : DocEnv :=
  { getDocumentHeaders := fun ctx => [("X-Headers-From", toString ctx.statusCode)],
    sanitizeErrors := fun errs _ => errs,
    serializeErrors := fun errs _ =>
      errs.map (fun l => l.map (fun p => (p.1, { message := p.2.toStr, stack := none }))),
    getStaticContextFromError := fun ctx e =>
      { statusCode := 500, loaderData := ctx.loaderData, actionData := ctx.actionData,
        errors := some [("root", e)] },
    parseJson := fun s => some s,
    render := fun _ _ => .error (.error "render boom") }

/-- A concrete build configuration shared by the concrete scenarios. -/
def buildW : Build :=
  { basename := "", ssr := true, prerender := [], assetsVersion := "v1",
    assetsRoutes := [], manifestPath := "/__manifest",
    hasHandleDataRequest := true, unstable_middleware := false }

/-- A concrete query-phase context shared by the concrete scenarios. -/
def ctxW : Ctx :=
  { statusCode := 200, loaderData := "ld", actionData := "ad", errors := none }

/-- C1 witness: with a render function that throws on both passes in
development mode, the document response is a 500 whose body carries the
generic message extended with the thrown error's text. -/
theorem c1_document_two_pass_recovery_witness :
    (handleDocumentRequest docEnvBoom ServerMode.Development buildW true none
      (.ok (.inr ctxW))).response.status = 500 ∧
    (handleDocumentRequest docEnvBoom ServerMode.Development buildW true none
      (.ok (.inr ctxW))).response.body =
      Body.text ("Unexpected Server Error" ++ "\n\n" ++ (Thrown.error "render boom").toStr) := by
  have h := (c1_document_two_pass_recovery docEnvBoom ServerMode.Development
    buildW true none).2.2.2 ctxW (.error "render boom") (.error "render boom")
    (by decide) rfl rfl
  exact ⟨h.1, h.2.2 (by decide)⟩

/-- C10: when the first render pass throws, exactly two render invocations
are made, and the second invocation receives the same headers value as the
first (the headers computed from the first-pass query result), while its
status code, static context and handoff stream come from the recomputed
error context. -/
theorem c10_second_render_keeps_headers (env : DocEnv) (mode : ServerMode)
    (build : Build) (spa : Bool) (cc : Option String) (ctx : Ctx) (e1 : Thrown)
    (hnb : SERVER_NO_BODY_STATUS_CODES.contains ctx.statusCode = false)
    (h1 : env.render 1 (docCall1 env mode build spa cc ctx) = .error e1) :
    (renderHtml env mode build spa cc ctx).renders.length = 2 ∧
    (∀ c1 c2, (renderHtml env mode build spa cc ctx).renders = [c1, c2] →
      c1.headers = env.getDocumentHeaders ctx ∧
      c2.headers = c1.headers ∧
      c2.statusCode = (docCtx2 env mode ctx e1).statusCode ∧
      c2.entryContext.staticHandlerContext = docCtx2 env mode ctx e1 ∧
      c2.entryContext.serverHandoffStream = mkState env mode (docCtx2 env mode ctx e1)) := by
  simp only [renderHtml, hnb, Bool.false_eq_true, if_false, h1]
  cases h2 : env.render 2 (docCall2 env mode build spa cc ctx e1) with
  | ok r =>
    refine ⟨rfl, ?_⟩
    intro c1 c2 h
    rw [List.cons.injEq, List.cons.injEq] at h
    obtain ⟨h1eq, h2eq, -⟩ := h
    rw [← h1eq, ← h2eq]
    exact ⟨rfl, rfl, rfl, rfl, rfl⟩
  | error e2 =>
    refine ⟨rfl, ?_⟩
    intro c1 c2 h
    rw [List.cons.injEq, List.cons.injEq] at h
    obtain ⟨h1eq, h2eq, -⟩ := h
    rw [← h1eq, ← h2eq]
    exact ⟨rfl, rfl, rfl, rfl, rfl⟩

/-- C10 witness: in the concrete always-throwing environment, two render
invocations happen and the second receives the first's headers (computed from
the original context, status 200) even though the recomputed error context
has status 500. -/
theorem c10_second_render_keeps_headers_witness :
    (renderHtml docEnvBoom ServerMode.Development buildW true none ctxW).renders.length = 2 ∧
    (docCall2 docEnvBoom ServerMode.Development buildW true none ctxW
      (.error "render boom")).headers =
      (docCall1 docEnvBoom ServerMode.Development buildW true none ctxW).headers ∧
    (docCtx2 docEnvBoom ServerMode.Development ctxW (.error "render boom")).statusCode = 500 := by
  have h := c10_second_render_keeps_headers docEnvBoom ServerMode.Development
    buildW true none ctxW (.error "render boom") (by decide) rfl
  exact ⟨h.1, (h.2 _ _ rfl).2.1, by decide⟩

/-- Reading a header right after setting it yields the set value. -/
theorem hget_hset (hs : HList) (n v : String) :
    hget (hset hs n v) n = some v := by
  unfold hget hset
  induction hs with
  | nil => simp [List.find?]
  | cons kv t ih =>
    rw [List.filter_cons]
    by_cases hk : (lowerStr kv.1 != lowerStr n) = true
    · rw [if_pos hk, List.cons_append]
      have hne : (lowerStr kv.1 == lowerStr n) = false := by
        cases hab : lowerStr kv.1 == lowerStr n
        · rfl
        · rw [bne, hab] at hk
          exact absurd hk (by simp)
      simp only [List.find?_cons, hne]
      exact ih
    · rw [if_neg hk]
      exact ih

/-- The response produced for a `.data` request after the optional
`handleDataRequest` hook transform. -/
def sfHookResponse (env : Env) (build : Build) (req : Request) : Response :=
  env.dataHook (env.singleFetch req.method (normalizePath build.basename req.pathname))
    (headParams (env.matchRoutes (normalizePath build.basename req.pathname)))

/-- C2 (amended): for a HEAD request, when the selected strategy's response
reaches the dispatcher's common exit (that is, on no early-exit path), the
returned response has an empty body and the status, statusText and headers of
the response the strategy produced for that same request.  Early-exit paths —
manifest responses, configuration-error responses, `ssr:false` 404 responses
and single-fetch redirect repackaging — return their responses directly,
bodies intact. -/
theorem c2_head_strip_on_common_exit (env : Env) (mode : ServerMode)
    (build : Build) (req : Request) (h : req.method = "HEAD") :
    (requestHandler env mode build req).strategy.earlyExit = false →
      (requestHandler env mode build req).response.body = Body.empty ∧
      (requestHandler env mode build req).response.status =
        (requestHandler env mode build req).raw.status ∧
      (requestHandler env mode build req).response.statusText =
        (requestHandler env mode build req).raw.statusText ∧
      (requestHandler env mode build req).response.headers =
        (requestHandler env mode build req).raw.headers := by
  unfold requestHandler requestHandlerInner
  split
  · intro he; simp [Strategy.earlyExit] at he
  · dsimp only
    repeat' split
    all_goals intro he
    all_goals try simp [Strategy.earlyExit] at he
    all_goals simp [finish, h, Strategy.earlyExit]

/-- A concrete dispatcher environment for the HEAD counterexample and the
classifier scenarios. -/
def envW : Env :=
  { decodeURI := id,
    getManifestPath := fun mp _ => mp,
    matchRoutes := fun _ => none,
    manifestError := none,
    contextCtorError := none,
    singleFetch := fun _ _ => mkTextResponse "sf" 200 "" [],
    dataHook := fun r _ => r,
    resourceQuery := fun _ => .ok (.str "ok"),
    docQuery := .ok (.inl (mkTextResponse "doc" 200 "" [])),
    criticalCss := none,
    doc := docEnvBoom }

/-- A HEAD request to the manifest endpoint with a matching version and no
`p` parameter. -/
def reqHeadManifest : Request :=
  { method := "HEAD", pathname := "/__manifest",
    query := [("version", "v1")], spaModeHeaderYes := false }

/-- C2 counterexample: a HEAD request to the manifest endpoint returns early
with the 400 `Invalid Request` body intact — the response body is not empty,
refuting the claim that every HEAD response has an empty body on every
early-exit path. -/
theorem c2_head_requests_counterexample :
    reqHeadManifest.method = "HEAD" ∧
    (requestHandler envW ServerMode.Production buildW reqHeadManifest).response.body =
      Body.text "Invalid Request" ∧
    (requestHandler envW ServerMode.Production buildW reqHeadManifest).response.body ≠
      Body.empty := by
  refine ⟨rfl, by decide, by decide⟩

/-- A HEAD document request that reaches the common exit. -/
def reqHeadDoc : Request :=
  { method := "HEAD", pathname := "/somepage", query := [], spaModeHeaderYes := false }

/-- C2 witness: a HEAD document request reaching the common exit gets an
empty body with the strategy response's status preserved. -/
theorem c2_head_strip_on_common_exit_witness :
    (requestHandler envW ServerMode.Production buildW reqHeadDoc).response.body = Body.empty ∧
    (requestHandler envW ServerMode.Production buildW reqHeadDoc).response.status =
      (requestHandler envW ServerMode.Production buildW reqHeadDoc).raw.status := by
  have h := c2_head_strip_on_common_exit envW ServerMode.Production buildW reqHeadDoc
    rfl (by decide)
  exact ⟨h.1, h.2.1⟩

/-- C3: for a `.data` request (away from the manifest endpoint, with SSR on
and the hook installed), when the hook-transformed result is a redirect the
returned response carries the fixed single-fetch redirect status 202 (not a
standard 3xx), the `Content-Type: text/x-script` header, and the redirect
descriptor wrapped under the reserved redirect marker for GET requests and
bare for non-GET requests; a non-redirect result passes through as the data
payload. -/
theorem c3_data_redirect_repackaging (env : Env) (mode : ServerMode)
    (build : Build) (req : Request)
    (hmw : build.unstable_middleware = false)
    (hssr : build.ssr = true)
    (hdata : strEndsWith req.pathname ".data" = true)
    (hmani : ¬ req.pathname = env.getManifestPath build.manifestPath
      (if build.basename = "" then "/" else build.basename))
    (hhook : build.hasHandleDataRequest = true) :
    (isRedirectResponse (sfHookResponse env build req) = true →
      (requestHandler env mode build req).response.status = SINGLE_FETCH_REDIRECT_STATUS ∧
      SINGLE_FETCH_REDIRECT_STATUS = 202 ∧
      ¬ (300 ≤ SINGLE_FETCH_REDIRECT_STATUS ∧ SINGLE_FETCH_REDIRECT_STATUS ≤ 399) ∧
      hget (requestHandler env mode build req).response.headers "Content-Type" =
        some "text/x-script" ∧
      (requestHandler env mode build req).response.body = Body.turbo (.redirect
        (if req.method = "GET" then
          SFResults.wrapped (getSingleFetchRedirect (sfHookResponse env build req).status
            (sfHookResponse env build req).headers build.basename)
        else
          SFResults.single (getSingleFetchRedirect (sfHookResponse env build req).status
            (sfHookResponse env build req).headers build.basename))) ∧
      (requestHandler env mode build req).strategy = .singleFetch true) ∧
    (isRedirectResponse (sfHookResponse env build req) = false →
      (requestHandler env mode build req).raw = sfHookResponse env build req ∧
      (requestHandler env mode build req).strategy = .singleFetch false) := by
  simp only [sfHookResponse]
  unfold requestHandler
  rw [hmw]
  unfold requestHandlerInner
  dsimp only
  rw [if_pos hssr]
  dsimp only
  rw [if_neg hmani, if_pos hdata, if_pos hhook]
  constructor
  · intro hr
    rw [if_pos hr]
    exact ⟨rfl, rfl, by decide, hget_hset _ _ _, rfl, rfl⟩
  · intro hr
    rw [if_neg (by rw [hr]; exact Bool.false_ne_true)]
    exact ⟨rfl, rfl⟩

/-- An environment whose `handleDataRequest` hook turns every data response
into a 302 redirect to `/target`. -/
def envRedir : Env :=
  { envW with
    dataHook := fun _ _ =>
      { status := 302, statusText := "", headers := [("Location", "/target")],
        body := .empty } }

/-- A GET request for a `.data` path. -/
def reqDataRedirect : Request :=
  { method := "GET", pathname := "/page.data", query := [], spaModeHeaderYes := false }

/-- C3 witness: a GET `.data` request whose hook-transformed result is a 302
redirect comes back with status 202, `Content-Type: text/x-script`, and the
descriptor wrapped under the reserved redirect marker. -/
theorem c3_data_redirect_repackaging_witness :
    (requestHandler envRedir ServerMode.Production buildW reqDataRedirect).response.status = 202 ∧
    hget (requestHandler envRedir ServerMode.Production buildW
      reqDataRedirect).response.headers "Content-Type" = some "text/x-script" ∧
    (requestHandler envRedir ServerMode.Production buildW reqDataRedirect).response.body =
      Body.turbo (.redirect (.wrapped ⟨302, "/target"⟩)) := by
  have h := (c3_data_redirect_repackaging envRedir ServerMode.Production buildW
    reqDataRedirect rfl rfl (by decide) (by decide) rfl).1 (by decide)
  refine ⟨h.1.trans h.2.1, h.2.2.2.1, ?_⟩
  rw [h.2.2.2.2.1]
  decide

/-- C5: with SSR disabled, (1) an empty prerender configuration puts every
request in SPA mode; (2) a `.data` request for a path outside the prerender
set (with or without a trailing slash) returns a 404 `Not Found` after
reporting the 404 route error through the error handler; (3) a document
request for such a path falls back to SPA mode. -/
theorem c5_ssr_false_gate (env : Env) (mode : ServerMode) (build : Build)
    (req : Request)
    (hmw : build.unstable_middleware = false)
    (hssr : build.ssr = false) :
    (build.prerender = [] → (requestHandler env mode build req).spaMode = true) ∧
    (build.prerender ≠ [] →
      env.decodeURI (normalizePath build.basename req.pathname) ∉ build.prerender →
      env.decodeURI (normalizePath build.basename req.pathname) ++ "/" ∉ build.prerender →
      (strEndsWith req.pathname ".data" = true →
        (requestHandler env mode build req).response.status = 404 ∧
        (requestHandler env mode build req).response.statusText = "Not Found" ∧
        (requestHandler env mode build req).response.body = Body.text "Not Found" ∧
        (requestHandler env mode build req).reports =
          [(Thrown.errorResponse (ssr404Error
            (env.decodeURI (normalizePath build.basename req.pathname))), [])] ∧
        (requestHandler env mode build req).strategy = .ssrNotFound) ∧
      (strEndsWith req.pathname ".data" = false →
        ¬ req.pathname = env.getManifestPath build.manifestPath
          (if build.basename = "" then "/" else build.basename) →
        (requestHandler env mode build req).spaMode = true ∧
        (requestHandler env mode build req).strategy = Strategy.document true)) := by
  constructor
  · intro hpre
    unfold requestHandler
    rw [hmw]
    unfold requestHandlerInner
    dsimp only
    rw [if_neg (by rw [hssr]; exact Bool.false_ne_true), if_pos hpre]
    dsimp only
    repeat' split
    all_goals simp [finish]
  · intro hpre h1 h2
    constructor
    · intro hdata
      unfold requestHandler
      rw [hmw]
      unfold requestHandlerInner
      dsimp only
      rw [if_neg (by rw [hssr]; exact Bool.false_ne_true), if_neg hpre,
        if_pos ⟨h1, h2⟩, if_pos hdata]
      exact ⟨rfl, rfl, rfl, rfl, rfl⟩
    · intro hdata hmani
      unfold requestHandler
      rw [hmw]
      unfold requestHandlerInner
      dsimp only
      rw [if_neg (by rw [hssr]; exact Bool.false_ne_true), if_neg hpre,
        if_pos ⟨h1, h2⟩, if_neg (by rw [hdata]; exact Bool.false_ne_true)]
      dsimp only
      rw [if_neg hmani, if_neg (by rw [hdata]; exact Bool.false_ne_true)]
      repeat' split
      all_goals simp_all [finish]

/-- C5 witness: with `ssr:false` and prerender list `["/there"]`, a `.data`
request for `/missing.data` yields a 404 with the route error reported, and a
document request for `/missing` falls back to SPA mode. -/
theorem c5_ssr_false_gate_witness :
    (requestHandler envW ServerMode.Production
      { buildW with ssr := false, prerender := ["/there"] }
      { method := "GET", pathname := "/missing.data", query := [],
        spaModeHeaderYes := false }).response.status = 404 ∧
    (requestHandler envW ServerMode.Production
      { buildW with ssr := false, prerender := ["/there"] }
      { method := "GET", pathname := "/missing", query := [],
        spaModeHeaderYes := false }).spaMode = true := by
  have hdataCase := ((c5_ssr_false_gate envW ServerMode.Production
    { buildW with ssr := false, prerender := ["/there"] }
    { method := "GET", pathname := "/missing.data", query := [],
      spaModeHeaderYes := false } rfl rfl).2
    (by decide) (by decide) (by decide)).1 (by decide)
  have hdocCase := ((c5_ssr_false_gate envW ServerMode.Production
    { buildW with ssr := false, prerender := ["/there"] }
    { method := "GET", pathname := "/missing", query := [],
      spaModeHeaderYes := false } rfl rfl).2
    (by decide) (by decide) (by decide)).2 (by decide) (by decide)
  exact ⟨hdataCase.1, hdocCase.1⟩

/-- C9: for a matched request dispatched to a strategy, every error report
carries exactly the params of the first entry of the ordered match list, and
the params handed to the `handleDataRequest` hook are those same first-entry
params — params of other matches are never merged in. -/
theorem c9_params_from_first_match (env : Env) (mode : ServerMode) (build : Build)
    (req : Request) (m : ServerRouteMatch) (rest : List ServerRouteMatch)
    (hmw : build.unstable_middleware = false)
    (hssr : build.ssr = true)
    (hmani : ¬ req.pathname = env.getManifestPath build.manifestPath
      (if build.basename = "" then "/" else build.basename))
    (hm : env.matchRoutes (normalizePath build.basename req.pathname) = some (m :: rest)) :
    (∀ r ∈ (requestHandler env mode build req).reports, r.2 = m.params) ∧
    (∀ ps, (requestHandler env mode build req).hookParams = some ps → ps = m.params) := by
  unfold requestHandler
  rw [hmw]
  unfold requestHandlerInner
  dsimp only
  rw [if_pos hssr]
  dsimp only
  rw [if_neg hmani, hm]
  repeat' split
  all_goals constructor
  all_goals simp [finish, headParams, hm]

/-- A nested two-entry match list whose entries carry different params. -/
def twoMatches : List ServerRouteMatch :=
  [⟨"routes/parent", [("id", "1")], true, false⟩,
   ⟨"routes/parent.child", [("child", "9")], true, false⟩]

/-- An environment matching every path to `twoMatches`, whose document query
throws so that an error report is produced. -/
def envTwo : Env :=
  { envW with
    matchRoutes := (fun _ => some twoMatches),
    docQuery := .error (.error "query boom") }

/-- A plain document request for the nested-match scenario. -/
def reqParent : Request :=
  { method := "GET", pathname := "/parent/1", query := [], spaModeHeaderYes := false }

/-- C9 witness: with a two-entry match list carrying different params, the
report produced by a throwing document query carries only the first match's
params. -/
theorem c9_params_from_first_match_witness :
    ((requestHandler envTwo ServerMode.Production buildW reqParent).reports.all
      (fun r => r.2 == [("id", "1")])) = true := by
  have h := (c9_params_from_first_match envTwo ServerMode.Production buildW reqParent
    ⟨"routes/parent", [("id", "1")], true, false⟩
    [⟨"routes/parent.child", [("child", "9")], true, false⟩]
    rfl rfl (by decide) rfl).1
  rw [List.all_eq_true]
  intro r hr
  exact beq_iff_eq.mpr (h r hr)

end RR
